import Mathlib

/-!
Verification of the per-frame update logic of a small side-scrolling game
(source: main.go).  Go float64 values are modelled as rationals (all the
constants and arithmetic of the program are exactly representable), the
`int` score as an integer, and the process-wide random generator as an
explicit draw threaded into each frame: `rand.Intn n` applied to a draw
`r` is modelled as `r % n`.
-/

namespace FlappyBird

-- Screen and game settings (constant block of main.go)

def screenWidth : ℚ := 500

def screenHeight : ℚ := 500

def birdSize : ℚ := 20

def gravity : ℚ := 1/2

def jumpStrength : ℚ := -6

def pipeWidth : ℚ := 50

def pipeGap : ℚ := 150

def pipeSpeed : ℚ := 2

def pipeSpacing : ℚ := 250

/-- The `Pipe` structure: one obstacle pair. -/
structure Pipe where
  x : ℚ
  height : ℚ
  passed : Bool
deriving DecidableEq, Repr

/-- The `Game` structure: the single mutable session aggregate. -/
structure Game where
  birdY : ℚ
  birdVelocity : ℚ
  pipes : List Pipe
  score : ℤ
  gameOver : Bool
  started : Bool
  nextPipeSpawn : ℚ
deriving DecidableEq, Repr

/-- The inputs one call of `Game.Update` consults: the two polled keys and
the value the random generator would yield on this frame's `Intn` call. -/
structure Input where
  space : Bool
  keyR : Bool
  randDraw : ℕ
deriving DecidableEq, Repr

/-- `(*Game).reset` from main.go: every field is overwritten, so the result
does not depend on the receiver. -/
def Game.reset (_g : Game) : Game :=
  { birdY := screenHeight / 2
    birdVelocity := 0
    pipes := []
    score := 0
    gameOver := false
    started := false
    nextPipeSpawn := screenWidth }

/-- The state after `main`'s `game := &Game{}; game.reset()`. -/
def initialGame : Game := Game.reset (Game.mk 0 0 [] 0 false false 0)

/-- Model of Go's `rng.Intn n`, uniform over `[0, n)`: the draw `r` reduced
modulo `n`. -/
def intn (n r : ℕ) : ℕ := r % n

/-- The pipe built by `(*Game).spawnPipe`:
`topHeight := float64(rng.Intn(screenHeight-pipeGap-birdSize*2) + birdSize)`
with `x = screenWidth` and `passed = false`. -/
def spawnedPipe (r : ℕ) : Pipe :=
  { x := screenWidth
    height := ((intn (500 - 150 - 20 * 2) r + 20 : ℕ) : ℚ)
    passed := false }

/-- `(*Game).spawnPipe` from main.go: append a fresh pipe at the right edge. -/
def Game.spawnPipe (g : Game) (r : ℕ) : Game :=
  { g with pipes := g.pipes ++ [spawnedPipe r] }

/-- Lines 125-128 of main.go: if the spawn countdown has elapsed, append a
fresh pipe and reset the countdown to `pipeSpacing`. -/
def spawnStep (pipes : List Pipe) (countdown : ℚ) (r : ℕ) : List Pipe × ℚ :=
  if countdown ≤ 0 then (pipes ++ [spawnedPipe r], pipeSpacing) else (pipes, countdown)

/-- Lines 113-116 of main.go: ground clamp, fatal. -/
def clampFloor (y : ℚ) (go : Bool) : ℚ × Bool :=
  if y > screenHeight - birdSize then (screenHeight - birdSize, true) else (y, go)

/-- Lines 119-122 of main.go: ceiling clamp, fatal. -/
def clampCeiling (y : ℚ) (go : Bool) : ℚ × Bool :=
  if y < 0 then (0, true) else (y, go)

/-- Line 136 of main.go, evaluated on the already-moved pipe: an unscored
pipe whose trailing edge has passed the bird's horizontal center. -/
def newlyPassed (p : Pipe) : Bool :=
  !p.passed && decide (p.x + pipeWidth < screenWidth / 2)

/-- Lines 142-143 of main.go, evaluated on the already-moved pipe: the bird
center column is inside the pipe's span and the bird is outside the gap. -/
def pipeCollides (birdY : ℚ) (p : Pipe) : Bool :=
  decide (screenWidth / 2 ≥ p.x ∧ screenWidth / 2 ≤ p.x + pipeWidth) &&
  decide (birdY ≤ p.height ∨ birdY + birdSize ≥ p.height + pipeGap)

/-- One iteration of the pipe loop (lines 132-146 of main.go): move the pipe
left, score it if its trailing edge just passed the bird column, and set the
game-over flag on collision. -/
def stepPipe (birdY : ℚ) (p : Pipe) (score : ℤ) (go : Bool) : Pipe × ℤ × Bool :=
  let p1 : Pipe := { p with x := p.x - pipeSpeed }
  let score1 := if newlyPassed p1 then score + 1 else score
  let p2 : Pipe := if newlyPassed p1 then { p1 with passed := true } else p1
  let go1 := if pipeCollides birdY p1 then true else go
  (p2, score1, go1)

/-- The whole pipe loop, left to right in spawn order. -/
def stepPipes (birdY : ℚ) : List Pipe → ℤ → Bool → List Pipe × ℤ × Bool
  | [], score, go => ([], score, go)
  | p :: ps, score, go =>
    let r1 := stepPipe birdY p score go
    let r2 := stepPipes birdY ps r1.2.1 r1.2.2
    (r1.1 :: r2.1, r2.2.1, r2.2.2)

/-- Lines 149-151 of main.go: drop the oldest pipe once fully off screen. -/
def retirePipes : List Pipe → List Pipe
  | [] => []
  | p :: ps => if p.x + pipeWidth < 0 then ps else p :: ps

/-- `(*Game).Update` from main.go, one frame. -/
def Game.Update (g : Game) (inp : Input) : Game :=
  if g.started = false then
    (if inp.space then { g with started := true } else g)
  else if g.gameOver = true then
    (if inp.keyR then g.reset else g)
  else
    let v0 := if inp.space then jumpStrength else g.birdVelocity
    let v1 := v0 + gravity
    let y1 := g.birdY + v1
    let f := clampFloor y1 g.gameOver
    let c := clampCeiling f.1 f.2
    let sp := spawnStep g.pipes g.nextPipeSpawn inp.randDraw
    let cd := sp.2 - pipeSpeed
    let st := stepPipes c.1 sp.1 g.score c.2
    { birdY := c.1
      birdVelocity := v1
      pipes := retirePipes st.1
      score := st.2.1
      gameOver := st.2.2
      started := g.started
      nextPipeSpawn := cd }

/-- Iterated frames. -/
def Game.run (g : Game) : List Input → Game
  | [] => g
  | i :: is => Game.run (g.Update i) is

/-- Pre-start phase: `started` is still false. -/
def Game.phaseNotStarted (g : Game) : Prop := g.started = false

/-- Running phase: started and not game over. -/
def Game.phaseRunning (g : Game) : Prop := g.started = true ∧ g.gameOver = false

/-- Game-over phase: started and game over. -/
def Game.phaseGameOver (g : Game) : Prop := g.started = true ∧ g.gameOver = true

/-- What one loop iteration does to a single pipe, as a plain function. -/
def movedPipe (p : Pipe) : Pipe :=
  let p1 : Pipe := { p with x := p.x - pipeSpeed }
  if newlyPassed p1 then { p1 with passed := true } else p1

/-- How many pipes of the list score on this frame. -/
def newlyPassedCount : List Pipe → ℤ
  | [] => 0
  | p :: ps =>
    (if newlyPassed { p with x := p.x - pipeSpeed } then 1 else 0) + newlyPassedCount ps

/-- Whether some pipe of the list collides with the bird on this frame. -/
def anyCollision (birdY : ℚ) (ps : List Pipe) : Bool :=
  ps.any fun p => pipeCollides birdY { p with x := p.x - pipeSpeed }

/-- One loop iteration, decomposed into its effect on the pipe, the score
and the game-over flag. -/
theorem stepPipe_eq (y : ℚ) (p : Pipe) (s : ℤ) (go : Bool) :
    stepPipe y p s go =
      (movedPipe p,
        s + (if newlyPassed { p with x := p.x - pipeSpeed } then 1 else 0),
        go || pipeCollides y { p with x := p.x - pipeSpeed }) := by
  simp only [stepPipe, movedPipe, Prod.mk.injEq]
  refine ⟨trivial, ?_, ?_⟩
  · by_cases h : newlyPassed { p with x := p.x - pipeSpeed } = true <;> simp [h]
  · by_cases h : pipeCollides y { p with x := p.x - pipeSpeed } = true <;> simp [h]

/-- The whole pipe loop, decomposed: every pipe is moved (and possibly
marked passed), the score grows by the number of newly passed pipes, and
the game-over flag absorbs any collision. -/
theorem stepPipes_eq (y : ℚ) (ps : List Pipe) (s : ℤ) (go : Bool) :
    stepPipes y ps s go =
      (ps.map movedPipe, s + newlyPassedCount ps, go || anyCollision y ps) := by
  induction ps generalizing s go with
  | nil => simp [stepPipes, newlyPassedCount, anyCollision]
  | cons p ps ih =>
    simp only [stepPipes, stepPipe_eq, ih, List.map_cons, newlyPassedCount,
      anyCollision, List.any_cons, Prod.mk.injEq]
    refine ⟨trivial, by omega, ?_⟩
    cases go <;> cases hc : pipeCollides y { p with x := p.x - pipeSpeed } <;>
      simp [anyCollision, hc]

/-- The number of pipes scored on one frame is never negative. -/
theorem newlyPassedCount_nonneg (ps : List Pipe) : 0 ≤ newlyPassedCount ps := by
  induction ps with
  | nil => simp [newlyPassedCount]
  | cons p ps ih =>
    simp only [newlyPassedCount]
    split <;> omega

/-- The two clamps always land the bird in `[0, screenHeight - birdSize]`,
whatever position they start from. -/
theorem clamp_mem (y : ℚ) (go1 go2 : Bool) :
    0 ≤ (clampCeiling (clampFloor y go1).1 go2).1 ∧
    (clampCeiling (clampFloor y go1).1 go2).1 ≤ screenHeight - birdSize := by
  unfold clampFloor clampCeiling
  split_ifs with hf hc hc <;>
    constructor <;>
    simp_all [screenHeight, birdSize] <;>
    linarith

/-- One frame without the reset key never lowers the score. -/
theorem score_le_update (g : Game) (inp : Input) (h : inp.keyR = false) :
    g.score ≤ (g.Update inp).score := by
  by_cases hs : g.started = false
  · by_cases hsp : inp.space <;> simp [Game.Update, hs, hsp]
  · by_cases hgo : g.gameOver = true
    · simp [Game.Update, hs, hgo, h]
    · have hn := newlyPassedCount_nonneg
        (spawnStep g.pipes g.nextPipeSpawn inp.randDraw).1
      simp only [Game.Update, hs, hgo, if_false, stepPipes_eq]
      simp
      omega

/-- Any run of frames without the reset key never lowers the score. -/
theorem score_le_run (g : Game) (l : List Input) (hl : ∀ i ∈ l, i.keyR = false) :
    g.score ≤ (g.run l).score := by
  induction l generalizing g with
  | nil => simp [Game.run]
  | cons i is ih =>
    have h1 := score_le_update g i (hl i (by simp))
    have h2 := ih (g.Update i) (fun j hj => hl j (by simp [hj]))
    simpa [Game.run] using le_trans h1 h2

/-- Claim C1, counterexample: with gapTopOffset 100 and the obstacle's span
containing the bird column (x = 220, span [220, 270] ∋ 250), the collision
check reports a collision at entityVerticalPosition 50 and at 90, contrary
to the claim's "no collision" verdicts (the bird, spanning [50,70] resp.
[90,110], overlaps the top block [0,100]). -/
theorem collision_scenario_claim_false :
    pipeCollides 50 (Pipe.mk 220 100 false) = true ∧
    pipeCollides 90 (Pipe.mk 220 100 false) = true := by
  constructor <;>
    norm_num [pipeCollides, screenWidth, pipeWidth, birdSize, pipeGap]

/-- Claim C1, amended: with gapTopOffset 100, entitySize 20 and gapHeight
150, an obstacle whose span contains the bird column yields a collision at
entityVerticalPosition 50, 90 and 5 alike (no collision needs
100 < position and position + 20 < 250, e.g. position 150 is safe), and on
a Running frame whose post-physics position is 5 the phase becomes
GameOver. -/
theorem collision_scenario_amended :
    pipeCollides 50 (Pipe.mk 220 100 false) = true ∧
    pipeCollides 90 (Pipe.mk 220 100 false) = true ∧
    pipeCollides 5 (Pipe.mk 220 100 false) = true ∧
    pipeCollides 150 (Pipe.mk 220 100 false) = false ∧
    (Game.Update (Game.mk 5 (-1/2) [Pipe.mk 222 100 false] 0 false true 400)
        (Input.mk false false 0)).gameOver = true := by
  refine ⟨?_, ?_, ?_, ?_, ?_⟩ <;>
    norm_num [Game.Update, clampFloor, clampCeiling, spawnStep, stepPipes, stepPipe,
      retirePipes, pipeCollides, newlyPassed, screenWidth, screenHeight, birdSize,
      gravity, jumpStrength, pipeWidth, pipeGap, pipeSpeed, pipeSpacing]

/-- Claim C2: every pipe built by the spawn operation has its gap-top
offset inside `[birdSize, screenHeight - pipeGap - birdSize]` (= [20, 330])
for every random draw, sits at `x = screenWidth` (= 500), and `spawnPipe`
appends exactly that pipe. -/
theorem spawned_pipe_in_range (g : Game) (r : ℕ) :
    birdSize ≤ (spawnedPipe r).height ∧
    (spawnedPipe r).height ≤ screenHeight - pipeGap - birdSize ∧
    (spawnedPipe r).x = screenWidth ∧
    (g.spawnPipe r).pipes = g.pipes ++ [spawnedPipe r] := by
  refine ⟨?_, ?_, rfl, rfl⟩
  · simp only [spawnedPipe, birdSize]
    exact_mod_cast Nat.le_add_left 20 (intn (500 - 150 - 20 * 2) r)
  · have h : intn (500 - 150 - 20 * 2) r + 20 ≤ 330 := by
      have hm : r % (500 - 150 - 20 * 2) < 500 - 150 - 20 * 2 :=
        Nat.mod_lt r (by norm_num)
      simp only [intn]
      omega
    simp only [spawnedPipe, screenHeight, pipeGap, birdSize]
    have h2 : ((intn (500 - 150 - 20 * 2) r + 20 : ℕ) : ℚ) ≤ ((330 : ℕ) : ℚ) := by
      exact_mod_cast h
    calc ((intn (500 - 150 - 20 * 2) r + 20 : ℕ) : ℚ) ≤ ((330 : ℕ) : ℚ) := h2
    _ ≤ 500 - 150 - 20 := by norm_num

/-- Claim C3: a reset-input frame in the GameOver phase restores the exact
start-of-session state (score 0, no pipes, bird re-centered with zero
velocity, spawn countdown back to the field width) and lands in the
pre-start phase; from there a frame without jump input changes nothing and
physics resumes only after a fresh jump input sets `started`. -/
theorem reset_returns_to_prestart (g : Game) (inp i2 i3 : Input)
    (hs : g.started = true) (hgo : g.gameOver = true) (hr : inp.keyR = true)
    (h2 : i2.space = false) (h3 : i3.space = true) :
    g.Update inp = initialGame ∧
    (g.Update inp).score = 0 ∧
    (g.Update inp).pipes = [] ∧
    (g.Update inp).birdY = screenHeight / 2 ∧
    (g.Update inp).birdVelocity = 0 ∧
    (g.Update inp).nextPipeSpawn = screenWidth ∧
    (g.Update inp).phaseNotStarted ∧
    (g.Update inp).gameOver = false ∧
    initialGame.Update i2 = initialGame ∧
    initialGame.Update i3 = { initialGame with started := true } := by
  have hu : g.Update inp = initialGame := by
    simp [Game.Update, hs, hgo, hr, Game.reset, initialGame]
  refine ⟨hu, ?_, ?_, ?_, ?_, ?_, ?_, ?_, ?_, ?_⟩
  · rw [hu]; rfl
  · rw [hu]; rfl
  · rw [hu]; rfl
  · rw [hu]; rfl
  · rw [hu]; rfl
  · rw [hu]; rfl
  · rw [hu]; rfl
  · simp [Game.Update, initialGame, Game.reset, h2]
  · simp [Game.Update, initialGame, Game.reset, h3]

/-- Claim C4: from any state whose bird position is already inside
`[0, screenHeight - birdSize]` (every reachable state is), one update step
in any phase, with any input and any random draw, keeps the bird position
inside `[0, screenHeight - birdSize]` (= [0, 480]). -/
theorem update_birdY_in_bounds (g : Game) (inp : Input)
    (h0 : 0 ≤ g.birdY) (h1 : g.birdY ≤ screenHeight - birdSize) :
    0 ≤ (g.Update inp).birdY ∧ (g.Update inp).birdY ≤ screenHeight - birdSize := by
  by_cases hs : g.started = false
  · by_cases hsp : inp.space <;> simp [Game.Update, hs, hsp] <;> exact ⟨h0, h1⟩
  · by_cases hgo : g.gameOver = true
    · by_cases hr : inp.keyR
      · simp [Game.Update, hs, hgo, hr, Game.reset, screenHeight, birdSize]
        norm_num
      · simp [Game.Update, hs, hgo, hr]
        exact ⟨h0, h1⟩
    · have hgo2 : g.gameOver = false := by
        cases hG : g.gameOver
        · rfl
        · exact absurd hG hgo
      have hc := clamp_mem
        (g.birdY + ((if inp.space then jumpStrength else g.birdVelocity) + gravity))
        false
        ((clampFloor
          (g.birdY + ((if inp.space then jumpStrength else g.birdVelocity) + gravity))
          false).2)
      simp only [Game.Update, hs, hgo2]
      simpa using hc

/-- Claim C5: across any run of frames without the reset key the score never
decreases; one pipe loop adds to the score exactly the number of pipes that
newly pass the bird column this frame, marks exactly those pipes passed, an
already-passed pipe stays passed and contributes nothing, and an unscored
pipe whose trailing edge crosses this frame contributes exactly 1 and has
its flag set in the same step. -/
theorem score_monotone_single_increment (g : Game) (l : List Input)
    (hl : ∀ i ∈ l, i.keyR = false)
    (y : ℚ) (ps : List Pipe) (s : ℤ) (go : Bool) (p : Pipe) :
    g.score ≤ (g.run l).score ∧
    (stepPipes y ps s go).2.1 = s + newlyPassedCount ps ∧
    (stepPipes y ps s go).1 = ps.map movedPipe ∧
    (p.passed = true → (movedPipe p).passed = true ∧ newlyPassedCount [p] = 0) ∧
    (p.passed = false → p.x - pipeSpeed + pipeWidth < screenWidth / 2 →
      (movedPipe p).passed = true ∧ newlyPassedCount [p] = 1) := by
  refine ⟨score_le_run g l hl, ?_, ?_, ?_, ?_⟩
  · simp [stepPipes_eq]
  · simp [stepPipes_eq]
  · intro hp
    constructor
    · simp [movedPipe, newlyPassed, hp]
    · simp [newlyPassedCount, newlyPassed, hp]
  · intro hp hx
    constructor
    · simp [movedPipe, newlyPassed, hp, hx]
    · simp [newlyPassedCount, newlyPassed, hp, hx]

/-- Claim C6: on a Running frame with the jump key held, the velocity is
overwritten to the jump impulse (the previous velocity is irrelevant), the
post-frame velocity is `jumpStrength + gravity` = -11/2, and the position
moves by exactly that amount before the two clamps are applied. -/
theorem jump_overwrites_velocity (g : Game) (inp : Input)
    (hs : g.started = true) (hgo : g.gameOver = false) (hj : inp.space = true) :
    (g.Update inp).birdVelocity = jumpStrength + gravity ∧
    jumpStrength + gravity = -11/2 ∧
    (g.Update inp).birdY =
      (clampCeiling (clampFloor (g.birdY + (jumpStrength + gravity)) false).1
        (clampFloor (g.birdY + (jumpStrength + gravity)) false).2).1 := by
  refine ⟨?_, by norm_num [jumpStrength, gravity], ?_⟩ <;>
    simp [Game.Update, hs, hgo, hj]

/-- Claim C7: a Running frame started at the ceiling (position 0) with
velocity -3 and no jump input ends with velocity -5/2, position clamped to
0, and the game-over flag set: hitting the ceiling is fatal. -/
theorem ceiling_hit_scenario (g : Game) (inp : Input)
    (hs : g.started = true) (hgo : g.gameOver = false)
    (hy : g.birdY = 0) (hv : g.birdVelocity = -3) (hj : inp.space = false) :
    (g.Update inp).birdVelocity = -5/2 ∧
    (g.Update inp).birdY = 0 ∧
    (g.Update inp).gameOver = true := by
  have hterm : g.birdY + ((if inp.space then jumpStrength else g.birdVelocity) + gravity)
      = -5/2 := by
    rw [hj, hy, hv]
    norm_num [gravity]
  refine ⟨?_, ?_, ?_⟩ <;>
    simp [Game.Update, hs, hgo, hj, hy, hv, stepPipes_eq, clampFloor, clampCeiling,
      gravity, screenHeight, birdSize] <;>
    norm_num

/-- Claim C8: a frame in the GameOver phase without the reset key leaves
the whole session state untouched. -/
theorem game_over_state_frozen (g : Game) (inp : Input)
    (hs : g.started = true) (hgo : g.gameOver = true) (hr : inp.keyR = false) :
    g.Update inp = g := by
  simp [Game.Update, hs, hgo, hr]

/-- Claim C9: outside the GameOver phase the reset key is never consulted:
two frames from the same state whose inputs agree on the jump key and the
random draw, and differ at most in the reset key, end in the same state. -/
theorem reset_key_not_consulted (g : Game) (i1 i2 : Input)
    (h : g.phaseNotStarted ∨ g.phaseRunning)
    (hspace : i1.space = i2.space) (hrand : i1.randDraw = i2.randDraw) :
    g.Update i1 = g.Update i2 := by
  rcases h with h | h
  · have hs : g.started = false := h
    simp [Game.Update, hs, hspace]
  · obtain ⟨hs, hgo⟩ := h
    simp [Game.Update, hs, hgo, hspace, hrand]

/-- Claim C10: on the Running frame whose physics step leaves the field
(so the clamp fires and the session ends), the spawn check, the pipe
advancement, the scoring pass and the retirement check all still run: the
final state is game over, its score still gained one per newly passed pipe,
its pipe list is the spawned-then-moved-then-retired list, the countdown
still ticked, and every pipe moved left by `pipeSpeed`. -/
theorem final_frame_still_processes (g : Game) (inp : Input)
    (hs : g.started = true) (hgo : g.gameOver = false)
    (hclamp :
      screenHeight - birdSize <
        g.birdY + ((if inp.space then jumpStrength else g.birdVelocity) + gravity) ∨
      g.birdY + ((if inp.space then jumpStrength else g.birdVelocity) + gravity) < 0) :
    (g.Update inp).gameOver = true ∧
    (g.Update inp).score =
      g.score + newlyPassedCount (spawnStep g.pipes g.nextPipeSpawn inp.randDraw).1 ∧
    (g.Update inp).pipes =
      retirePipes (((spawnStep g.pipes g.nextPipeSpawn inp.randDraw).1).map movedPipe) ∧
    (g.Update inp).nextPipeSpawn =
      (spawnStep g.pipes g.nextPipeSpawn inp.randDraw).2 - pipeSpeed ∧
    ∀ p ∈ (spawnStep g.pipes g.nextPipeSpawn inp.randDraw).1,
      (movedPipe p).x = p.x - pipeSpeed := by
  have key : (clampCeiling
      (clampFloor
        (g.birdY + ((if inp.space then jumpStrength else g.birdVelocity) + gravity))
        false).1
      (clampFloor
        (g.birdY + ((if inp.space then jumpStrength else g.birdVelocity) + gravity))
        false).2).2 = true := by
    unfold clampFloor clampCeiling
    rcases hclamp with h | h
    · rw [if_pos h]
      split_ifs <;> rfl
    · by_cases hf :
        screenHeight - birdSize <
          g.birdY + ((if inp.space then jumpStrength else g.birdVelocity) + gravity)
      · rw [if_pos hf]
        split_ifs <;> rfl
      · rw [if_neg hf, if_pos h]
  refine ⟨?_, ?_, ?_, ?_, ?_⟩
  · simp [Game.Update, hs, hgo, stepPipes_eq, key]
  · simp [Game.Update, hs, hgo, stepPipes_eq]
  · simp [Game.Update, hs, hgo, stepPipes_eq]
  · simp [Game.Update, hs, hgo]
  · intro p _
    simp only [movedPipe]
    split <;> rfl

/-- Witness for the reset claim at a concrete game-over state. -/
theorem reset_returns_to_prestart_witness :
    Game.Update (Game.mk 100 3 [Pipe.mk 300 200 true] 7 true true 123)
        (Input.mk false true 5) = initialGame ∧
    (Game.Update (Game.mk 100 3 [Pipe.mk 300 200 true] 7 true true 123)
        (Input.mk false true 5)).score = 0 ∧
    (Game.Update (Game.mk 100 3 [Pipe.mk 300 200 true] 7 true true 123)
        (Input.mk false true 5)).pipes = [] ∧
    (Game.Update (Game.mk 100 3 [Pipe.mk 300 200 true] 7 true true 123)
        (Input.mk false true 5)).birdY = screenHeight / 2 ∧
    (Game.Update (Game.mk 100 3 [Pipe.mk 300 200 true] 7 true true 123)
        (Input.mk false true 5)).birdVelocity = 0 ∧
    (Game.Update (Game.mk 100 3 [Pipe.mk 300 200 true] 7 true true 123)
        (Input.mk false true 5)).nextPipeSpawn = screenWidth ∧
    (Game.Update (Game.mk 100 3 [Pipe.mk 300 200 true] 7 true true 123)
        (Input.mk false true 5)).phaseNotStarted ∧
    (Game.Update (Game.mk 100 3 [Pipe.mk 300 200 true] 7 true true 123)
        (Input.mk false true 5)).gameOver = false ∧
    initialGame.Update (Input.mk false false 0) = initialGame ∧
    initialGame.Update (Input.mk true false 0) = { initialGame with started := true } :=
  reset_returns_to_prestart (Game.mk 100 3 [Pipe.mk 300 200 true] 7 true true 123)
    (Input.mk false true 5) (Input.mk false false 0) (Input.mk true false 0)
    rfl rfl rfl rfl rfl

/-- Witness for the position invariant at a concrete running state. -/
theorem update_birdY_in_bounds_witness :
    0 ≤ ((Game.mk 250 0 [] 0 false true 500).Update (Input.mk true false 0)).birdY ∧
    ((Game.mk 250 0 [] 0 false true 500).Update (Input.mk true false 0)).birdY ≤
      screenHeight - birdSize :=
  update_birdY_in_bounds (Game.mk 250 0 [] 0 false true 500) (Input.mk true false 0)
    (by norm_num) (by norm_num [screenHeight, birdSize])

/-- Witness for the scoring claim at a concrete state, input list and pipe. -/
theorem score_monotone_single_increment_witness :
    (Game.mk 250 0 [] 0 false true 500).score ≤
      ((Game.mk 250 0 [] 0 false true 500).run [Input.mk true false 0]).score ∧
    (stepPipes 5 [Pipe.mk 201 100 false] 0 false).2.1 =
      0 + newlyPassedCount [Pipe.mk 201 100 false] ∧
    (stepPipes 5 [Pipe.mk 201 100 false] 0 false).1 =
      [Pipe.mk 201 100 false].map movedPipe ∧
    ((Pipe.mk 201 100 false).passed = true →
      (movedPipe (Pipe.mk 201 100 false)).passed = true ∧
      newlyPassedCount [Pipe.mk 201 100 false] = 0) ∧
    ((Pipe.mk 201 100 false).passed = false →
      (Pipe.mk 201 100 false).x - pipeSpeed + pipeWidth < screenWidth / 2 →
      (movedPipe (Pipe.mk 201 100 false)).passed = true ∧
      newlyPassedCount [Pipe.mk 201 100 false] = 1) :=
  score_monotone_single_increment (Game.mk 250 0 [] 0 false true 500)
    [Input.mk true false 0] (by decide)
    5 [Pipe.mk 201 100 false] 0 false (Pipe.mk 201 100 false)

/-- Witness for the jump-override claim at a concrete running state. -/
theorem jump_overwrites_velocity_witness :
    ((Game.mk 100 7 [] 0 false true 400).Update (Input.mk true false 0)).birdVelocity =
      jumpStrength + gravity ∧
    jumpStrength + gravity = -11/2 ∧
    ((Game.mk 100 7 [] 0 false true 400).Update (Input.mk true false 0)).birdY =
      (clampCeiling
        (clampFloor ((Game.mk 100 7 [] 0 false true 400).birdY +
          (jumpStrength + gravity)) false).1
        (clampFloor ((Game.mk 100 7 [] 0 false true 400).birdY +
          (jumpStrength + gravity)) false).2).1 :=
  jump_overwrites_velocity (Game.mk 100 7 [] 0 false true 400) (Input.mk true false 0)
    rfl rfl rfl

/-- Witness for the ceiling scenario at the concrete state of the spec. -/
theorem ceiling_hit_scenario_witness :
    ((Game.mk 0 (-3) [] 0 false true 400).Update (Input.mk false false 0)).birdVelocity =
      -5/2 ∧
    ((Game.mk 0 (-3) [] 0 false true 400).Update (Input.mk false false 0)).birdY = 0 ∧
    ((Game.mk 0 (-3) [] 0 false true 400).Update (Input.mk false false 0)).gameOver =
      true :=
  ceiling_hit_scenario (Game.mk 0 (-3) [] 0 false true 400) (Input.mk false false 0)
    rfl rfl rfl rfl rfl

/-- Witness for the frozen game-over state at a concrete state. -/
theorem game_over_state_frozen_witness :
    (Game.mk 10 2 [Pipe.mk 100 50 true] 3 true true 42).Update (Input.mk true false 7) =
      Game.mk 10 2 [Pipe.mk 100 50 true] 3 true true 42 :=
  game_over_state_frozen (Game.mk 10 2 [Pipe.mk 100 50 true] 3 true true 42)
    (Input.mk true false 7) rfl rfl rfl

/-- Witness for the reset-key independence at a concrete running state. -/
theorem reset_key_not_consulted_witness :
    (Game.mk 250 0 [] 0 false true 500).Update (Input.mk true false 3) =
      (Game.mk 250 0 [] 0 false true 500).Update (Input.mk true true 3) :=
  reset_key_not_consulted (Game.mk 250 0 [] 0 false true 500)
    (Input.mk true false 3) (Input.mk true true 3)
    (Or.inr ⟨rfl, rfl⟩) rfl rfl

/-- Witness for the final-frame claim: the floor is hit while a pipe is
passed, so the score still rises on the game-ending frame. -/
theorem final_frame_still_processes_witness :
    ((Game.mk 479 10 [Pipe.mk 201 100 false] 0 false true 400).Update
        (Input.mk false false 0)).gameOver = true ∧
    ((Game.mk 479 10 [Pipe.mk 201 100 false] 0 false true 400).Update
        (Input.mk false false 0)).score =
      (Game.mk 479 10 [Pipe.mk 201 100 false] 0 false true 400).score +
        newlyPassedCount (spawnStep [Pipe.mk 201 100 false] 400 0).1 ∧
    ((Game.mk 479 10 [Pipe.mk 201 100 false] 0 false true 400).Update
        (Input.mk false false 0)).pipes =
      retirePipes ((spawnStep [Pipe.mk 201 100 false] 400 0).1.map movedPipe) ∧
    ((Game.mk 479 10 [Pipe.mk 201 100 false] 0 false true 400).Update
        (Input.mk false false 0)).nextPipeSpawn =
      (spawnStep [Pipe.mk 201 100 false] 400 0).2 - pipeSpeed ∧
    ∀ p ∈ (spawnStep [Pipe.mk 201 100 false] 400 0).1,
      (movedPipe p).x = p.x - pipeSpeed :=
  final_frame_still_processes (Game.mk 479 10 [Pipe.mk 201 100 false] 0 false true 400)
    (Input.mk false false 0) rfl rfl
    (by norm_num [screenHeight, birdSize, gravity])

end FlappyBird
